import Mathlib

/-!
Verification of the Hygie-AI `backend/bmp_service` clinical rule core.

Python strings are embedded as `List Char` (`Str`); `str.upper()` is
`List.map Char.toUpper`, `str.strip()` drops ASCII whitespace at both ends,
and Python string comparison is code-point lexicographic (`strLt`).
Python dicts are embedded as association lists where an assignment `d[k] = v`
prepends `(k, v)` and `dictLookup` returns the first (most recent) binding,
so later assignments shadow earlier ones exactly as in a Python dict.
Python `assert` failures and raised exceptions are embedded as `Except.error`.
-/

namespace Hygie

abbrev Str := List Char

/-- Embeds `str.upper()` (ASCII case mapping, the range used by the data of the code). -/
def upper (s : Str) : Str := s.map Char.toUpper

/-- ASCII whitespace recognised by `str.strip()`. -/
def isSpaceChar (c : Char) : Bool :=
  c = ' ' || c = '\t' || c = '\n' || c = '\r' || c = '\x0b' || c = '\x0c'

/-- Embeds `str.strip()`. -/
def strip (s : Str) : Str :=
  ((s.dropWhile isSpaceChar).reverse.dropWhile isSpaceChar).reverse

/-- Python string `<`: code-point lexicographic comparison. -/
def strLt : Str → Str → Bool
  | [], [] => false
  | [], _ :: _ => true
  | _ :: _, [] => false
  | a :: as, b :: bs => if a < b then true else if b < a then false else strLt as bs

/-- Embeds `tuple(sorted((x, y)))` for a two-element pair (stable ascending sort). -/
def sortedPair2 (p : Str × Str) : Str × Str :=
  if strLt p.2 p.1 then (p.2, p.1) else (p.1, p.2)

/-- Python dict lookup: first (most recently assigned) binding wins. -/
def dictLookup {ν : Type} : List ((Str × Str) × ν) → (Str × Str) → Option ν
  | [], _ => none
  | (k, v) :: rest, q => if q = k then some v else dictLookup rest q

/-- Dict lookup for string-keyed dicts (normalization map, burden scores). -/
def strLookup {ν : Type} : List (Str × ν) → Str → Option ν
  | [], _ => none
  | (k, v) :: rest, q => if q = k then some v else strLookup rest q

/-- A sequence of Python dict assignments, first to last. -/
def dictOfAssignments {ν : Type} (l : List ((Str × Str) × ν)) :
    List ((Str × Str) × ν) :=
  l.foldl (fun d kv => kv :: d) []

/-- Embeds `rules._INTERACTIONS_RAW`: the hard-coded interaction table. -/
def _INTERACTIONS_RAW : List ((Str × Str) × Str) :=
  [(("LISINOPRIL".data, ("IBUPROFEN".data)),
    ("Association d’un IEC et d’un AINS : risque d’insuffisance rénale aiguë.".data)),
   (("ACETYLSALICYLIC_ACID".data, ("APIXABAN".data)),
    ("Double traitement anti-thrombotique, risque hémorragique accru.".data)),
   (("ATORVASTATIN".data, ("CLARITHROMYCIN".data)),
    ("Statine + macrolide : risque augmenté de rhabdomyolyse.".data)),
   (("SIMVASTATIN".data, ("CLARITHROMYCIN".data)),
    ("Statine + macrolide : risque augmenté de rhabdomyolyse.".data)),
   (("WARFARIN".data, ("TRIMETHOPRIM".data)),
    ("Warfarine + triméthoprime : risque hémorragique accru.".data)),
   (("LITHIUM".data, ("IBUPROFEN".data)),
    ("Lithium + AINS : risque de toxicité du lithium.".data)),
   (("MORPHINE".data, ("DIAZEPAM".data)),
    ("Opioïde + benzodiazépine : risque de dépression respiratoire.".data)),
   (("WARFARIN".data, ("IBUPROFEN".data)),
    ("Warfarine + AINS : risque hémorragique.".data)),
   (("SIMVASTATIN".data, ("ITRACONAZOLE".data)),
    ("Statine + azolé : myopathie/rhabdomyolyse.".data)),
   (("DIGOXIN".data, ("VERAPAMIL".data)),
    ("Digoxine + vérapamil : bradycardie/surdosage.".data)),
   (("SILDENAFIL".data, ("NITROGLYCERIN".data)),
    ("Sildénafil + dérivé nitré : hypotension sévère.".data)),
   (("CARBAMAZEPINE".data, ("ERYTHROMYCIN".data)),
    ("Carbamazépine + érythromycine : hausse taux carbamazépine.".data))]

/-- Embeds `rules._INTERACTIONS` before the thesaurus merge:
`{tuple(sorted(pair)): desc for pair, desc in _INTERACTIONS_RAW}`. -/
def _INTERACTIONS_static : List ((Str × Str) × Str) :=
  dictOfAssignments (_INTERACTIONS_RAW.map (fun pd => (sortedPair2 pd.1, pd.2)))

/-- Embeds `interactions_ref._order`: `tuple(sorted((a.upper(), b.upper())))`. -/
def _order (a b : Str) : Str × Str := sortedPair2 (upper a, upper b)

/-- Embeds `rules._key`: same body as `_order`. -/
def _key (a b : Str) : Str × Str := sortedPair2 (upper a, upper b)

/-- One iteration of the row loop in `_iter_rows`: skip rows with fewer than 3
fields, skip empty stripped substance names and gravities (stripped,
uppercased) outside {C, D}; otherwise assign
`mapping[_order(a, b)] = "Interaction ANSM (<grav>)"`. -/
def iterStep (mapping : List ((Str × Str) × Str)) (row : List Str) :
    List ((Str × Str) × Str) :=
  if row.length < 3 then mapping
  else
    let a := strip (row.getD 0 [])
    let b := strip (row.getD 1 [])
    let grav := upper (strip (row.getD 2 []))
    if a = [] ∨ b = [] ∨ ¬(grav = ("C".data) ∨ grav = ("D".data)) then mapping
    else (_order a b, ("Interaction ANSM (".data) ++ grav ++ (")".data)) :: mapping

/-- Embeds the `_iter_rows` helper of `interactions_ref._load_from_csv`. -/
def _iter_rows (rows : List (List Str)) : List ((Str × Str) × Str) :=
  rows.foldl iterStep []

/-- Embeds `interactions_ref._load_from_csv`, over the parsed CSV rows (file access
and the equivalent large-file pandas branch are abstracted to the row list). -/
def _load_from_csv (rows : List (List Str)) : List ((Str × Str) × Str) :=
  _iter_rows rows

/-- Embeds `interactions_ref._load_from_pdf`, over the `(a, b)` group pairs produced
by the `A / B` line regex (text extraction is abstracted to that pair list);
each pair is stripped and keyed through `_order`. -/
def pdfStep (mapping : List ((Str × Str) × Str)) (ab : Str × Str) :
    List ((Str × Str) × Str) :=
  (_order (strip ab.1) (strip ab.2),
   ("Interaction ANSM (gravité non classée)".data)) :: mapping

def _load_from_pdf (pairs : List (Str × Str)) : List ((Str × Str) × Str) :=
  pairs.foldl pdfStep []

/-- Embeds `interactions_ref.get_interactions`: first non-empty CSV result, else
first non-empty PDF result, else the empty dict. -/
def get_interactions (csvRows : List (List (List Str)))
    (pdfPairs : List (List (Str × Str))) : List ((Str × Str) × Str) :=
  (((csvRows.map _load_from_csv) ++ (pdfPairs.map _load_from_pdf)).find?
    (fun d => !d.isEmpty)).getD []

/-- Embeds `rules._INTERACTIONS` after `.update(get_interactions())`: the update
overlays the thesaurus entries over the static dict, so on key collision the
thesaurus binding shadows the static one. -/
def _INTERACTIONS (thesaurus : List ((Str × Str) × Str)) :
    List ((Str × Str) × Str) :=
  thesaurus ++ _INTERACTIONS_static

/-- All pair keys formed by the nested loops of `detect_interactions`, in loop
order: for each position `i`, `_key meds[i] meds[j]` for every `j > i`. -/
def pairKeys : List Str → List (Str × Str)
  | [] => []
  | a :: rest => rest.map (_key a) ++ pairKeys rest

/-- The visited-set dedup of the detection loop: keep the first occurrence of
each key, in order. -/
def dedupKeys : List (Str × Str) → List (Str × Str) → List (Str × Str)
  | _, [] => []
  | seen, k :: ks =>
    if k ∈ seen then dedupKeys seen ks else k :: dedupKeys (k :: seen) ks

/-- Embeds `rules.detect_interactions`: uppercase the medications, walk all position
pairs in loop order, skip keys already seen in this call, and report the
catalog description of each fresh key that is in the catalog. -/
def detect_interactions (catalog : List ((Str × Str) × Str))
    (medications : List Str) : List Str :=
  let meds := medications.map upper
  (dedupKeys [] (pairKeys meds)).filterMap (fun k => dictLookup catalog k)

/-- Embeds `normalization._NORMALIZATION_MAP` (keys are pairwise distinct, so plain
first-match lookup agrees with the Python dict). -/
def _NORMALIZATION_MAP : List (Str × Str) :=
  [("IBUPROFENE".data, ("IBUPROFEN".data)),
   ("ADVIL".data, ("IBUPROFEN".data)),
   ("NUROFEN".data, ("IBUPROFEN".data)),
   ("ASPIRINE".data, ("ACETYLSALICYLIC_ACID".data)),
   ("ASPIRIN".data, ("ACETYLSALICYLIC_ACID".data)),
   ("KARDEGIC".data, ("ACETYLSALICYLIC_ACID".data)),
   ("ZESTRIL".data, ("LISINOPRIL".data)),
   ("ELIQUIS".data, ("APIXABAN".data)),
   ("IEC".data, ("IEC".data))]

/-- The on-disk BDPM reference data as seen by `drug_repository`: whether the
two CSV files exist, and the rows of each file as the csv reader yields them
(delimiter splitting and the encoding fallback are abstracted to the row
lists; a blank line is the empty row `[]`). -/
structure BDPMData where
  specExists : Bool
  compoExists : Bool
  specRows : List (List Str)
  compoRows : List (List Str)

/-- Embeds `drug_repository._BDPMRepository` after construction. -/
structure BDPMRepository where
  libelle_to_cis : List (Str × Str)
  cis_to_substances : List (Str × List Str)

/-- One data row of `_BDPMRepository._parse_spec`: skip empty rows, trim the
CIS, trim+uppercase the libellé (empty when the row has a single field), and
assign `libelle_to_cis[lib] = cis` when both are non-empty. -/
def specRowStep (m : List (Str × Str)) (row : List Str) : List (Str × Str) :=
  match row with
  | [] => m
  | r0 :: _ =>
    let cis := strip r0
    let lib := if row.length > 1 then upper (strip (row.getD 1 [])) else []
    if cis ≠ [] ∧ lib ≠ [] then (lib, cis) :: m else m

/-- Embeds `_BDPMRepository._parse_spec` over the file rows. The source
catches only `UnicodeDecodeError`: an existing empty file makes
`next(reader)` raise `StopIteration`, and a blank first line makes the
unguarded `header[0]` raise `IndexError`; both propagate. A recognised
header row (`CIS`/`CODECIS`) is skipped, otherwise the reader is rewound. -/
def _parse_spec (rows : List (List Str)) : Except Str (List (Str × Str)) :=
  match rows with
  | [] => .error ("StopIteration".data)
  | header :: restRows =>
    match header with
    | [] => .error ("IndexError".data)
    | h0 :: _ =>
      let has_header := upper (strip h0) = ("CIS".data) ∨
        upper (strip h0) = ("CODECIS".data)
      .ok ((if has_header then restRows else header :: restRows).foldl
        specRowStep [])

/-- `setdefault(cis, []).append(substance)` on the CIS→substances dict. -/
def compoInsert : List (Str × List Str) → Str → Str → List (Str × List Str)
  | [], cis, s => [(cis, [s])]
  | (k, vs) :: rest, cis, s =>
    if k = cis then (k, vs ++ [s]) :: rest else (k, vs) :: compoInsert rest cis s

/-- One data row of `_BDPMRepository._parse_compo`: skip rows with fewer than
4 fields, trim the CIS, trim+uppercase the substance, append when both are
non-empty. -/
def compoRowStep (m : List (Str × List Str)) (row : List Str) :
    List (Str × List Str) :=
  if row.length < 4 then m
  else
    let cis := strip (row.getD 0 [])
    let substance := upper (strip (row.getD 3 []))
    if cis ≠ [] ∧ substance ≠ [] then compoInsert m cis substance else m

/-- Embeds `_BDPMRepository._parse_compo` over the file rows: an empty file
still raises `StopIteration` at `next(reader)`, but the header test is the
short-circuiting `header and header[0].strip().upper() == "CIS"`, so a blank
first line does not raise here. -/
def _parse_compo (rows : List (List Str)) : Except Str (List (Str × List Str)) :=
  match rows with
  | [] => .error ("StopIteration".data)
  | header :: restRows =>
    let has_header := header ≠ [] ∧ upper (strip (header.getD 0 [])) = ("CIS".data)
    .ok ((if has_header then restRows else header :: restRows).foldl
      compoRowStep [])

/-- Embeds `drug_repository.get_repository`: constructing `_BDPMRepository`
asserts that both BDPM files exist (a missing file raises `AssertionError`),
then parses the Spécialités file and the Compositions file, either of which
can itself raise on malformed content. -/
def get_repository (fs : BDPMData) : Except Str BDPMRepository :=
  if fs.specExists = false then .error ("BDPM Spécialités introuvable".data)
  else if fs.compoExists = false then .error ("BDPM Compositions introuvable".data)
  else
    match _parse_spec fs.specRows with
    | .error e => .error e
    | .ok libelle_to_cis =>
      match _parse_compo fs.compoRows with
      | .error e => .error e
      | .ok cis_to_substances => .ok ⟨libelle_to_cis, cis_to_substances⟩

/-- Embeds `_BDPMRepository.find_dci`: trim+uppercase, libellé→CIS, first substance
of the CIS (Python `if not cis` also rejects an empty CIS string). -/
def find_dci (repo : BDPMRepository) (name : Str) : Option Str :=
  let lib := upper (strip name)
  match strLookup repo.libelle_to_cis lib with
  | none => none
  | some cis =>
    if cis = [] then none
    else
      match (strLookup repo.cis_to_substances cis).getD [] with
      | [] => none
      | s :: _ => some s

/-- The pure lookup cascade of `normalization.normalize`, given the
repository's `find_dci`: repository hit (a non-empty DCI is truthy) wins,
else the static map, else the trimmed-uppercased input itself. -/
def normalize_with (find : Str → Option Str) (name : Str) : Str :=
  let key := upper (strip name)
  match find key with
  | some dci => if dci = [] then (strLookup _NORMALIZATION_MAP key).getD key else dci
  | none => (strLookup _NORMALIZATION_MAP key).getD key

/-- Embeds `normalization.normalize`: calls `get_repository()` (which can raise when
the BDPM files are missing) and then runs the lookup cascade. -/
def normalize (fs : BDPMData) (name : Str) : Except Str Str :=
  match get_repository fs with
  | .error e => .error e
  | .ok repo => .ok (normalize_with (fun k => find_dci repo k) name)

/-- Embeds `stopp_start` demographics dict, restricted to the `"age"` key — the only
key the rules consult. `age? = none` models a dict without `"age"`. -/
structure Demographics where
  age? : Option Int

/-- Embeds `stopp_start.Rule`. -/
structure Rule where
  id : Str
  description : Str
  predicate : Demographics → List Str → Bool
  phase : Str := ("STOPP".data)

/-- Embeds `Rule.applies`: asserts `"age" in demo` (the `isinstance(meds, list)`
assertion always holds in the embedding), then runs the predicate. -/
def Rule.applies (r : Rule) (demo : Demographics) (meds : List Str) :
    Except Str Bool :=
  if demo.age?.isSome then .ok (r.predicate demo meds)
  else .error ("Missing age in demographics".data)

/-- Embeds `stopp_start.has_med`: some medication, uppercased, is in the target set. -/
def has_med (meds : List Str) (target : List Str) : Bool :=
  meds.any (fun m => target.contains (upper m))

/-- Embeds `stopp_start._rule_A1`: anticholinergics if age ≥ 65
(`demo.get("age", 0)`, then `if age < 65: return False`). -/
def _rule_A1 (demo : Demographics) (meds : List Str) : Bool :=
  let age := demo.age?.getD 0
  if age < 65 then false
  else has_med meds
    [("DIPHENHYDRAMINE".data), ("DEXCHLORPHENIRAMINE".data), ("OXYBUTYNIN".data)]

/-- Embeds `stopp_start._rule_B2`: ACE inhibitor together with a potassium
supplement. -/
def _rule_B2 (_demo : Demographics) (meds : List Str) : Bool :=
  has_med meds [("LISINOPRIL".data), ("RAMIPRIL".data), ("PERINDOPRIL".data)] &&
  has_med meds [("POTASSIUM".data), ("KCL".data)]

/-- The static A1 entry of `stopp_start._RULES`. -/
def ruleA1 : Rule :=
  { id := ("A1".data), description := ("Anticholinergic chez >65 ans".data),
    predicate := _rule_A1 }

/-- The static B2 entry of `stopp_start._RULES`. -/
def ruleB2 : Rule :=
  { id := ("B2".data), description := ("IEC + supplément de potassium".data),
    predicate := _rule_B2 }

/-- Embeds `stopp_start._RULES`: the static rules A1 and B2, extended by the rules
the YAML loader produced (`[]` when the YAML file is absent). -/
def _RULES (extra : List Rule) : List Rule :=
  [ruleA1, ruleB2] ++ extra

/-- The loop body of `evaluate_rules` over a rule list: the `applies` of each rule
`applies` may raise (missing age); on `True` the description is appended to
the STOPP or START list according to the rule's phase. -/
def evalLoop (demo : Demographics) (meds : List Str) :
    List Rule → Except Str (List Str × List Str)
  | [] => .ok ([], [])
  | r :: rs =>
    match r.applies demo meds with
    | .error e => .error e
    | .ok fired =>
      match evalLoop demo meds rs with
      | .error e => .error e
      | .ok (stops, starts) =>
        if fired then
          if r.phase = ("START".data) then .ok (stops, r.description :: starts)
          else .ok (r.description :: stops, starts)
        else .ok (stops, starts)

/-- Embeds `stopp_start.evaluate_rules`: run every registered rule (static ones
first, then the dynamically loaded ones) and partition fired descriptions
into (STOPP, START). -/
def evaluate_rules (extra : List Rule) (demo : Demographics)
    (meds : List Str) : Except Str (List Str × List Str) :=
  evalLoop demo meds (_RULES extra)

/-- Embeds `anticholinergic.compute_burden_score` over the loaded score table:
sum of `scores.get(m.upper(), 0)` across the list, duplicates included. -/
def compute_burden_score (scores : List (Str × Int)) (meds : List Str) : Int :=
  (meds.map (fun m => (strLookup scores (upper m)).getD 0)).sum

/-- The sex factor of `renal`: `0.85 if sex.strip().upper() in {"F", "FEMME"}
else 1.0`. -/
def sexFactor (sex : Str) : ℚ :=
  if upper (strip sex) = ("F".data) ∨ upper (strip sex) = ("FEMME".data)
  then 85 / 100 else 1

/-- The Cockcroft-Gault value computed by `renal.calculate_clcr`. -/
def clcr_value (creatinine : ℚ) (age : Int) (weight : ℚ) (sex : Str) : ℚ :=
  ((140 - (age : ℚ)) * weight) / (72 * creatinine) * sexFactor sex

/-- Embeds `renal.calculate_clcr` with its precondition and postcondition asserts
embedded as errors (assert order: creatinine, weight, age, then clcr ≥ 0). -/
def calculate_clcr (creatinine : ℚ) (age : Int) (weight : ℚ) (sex : Str) :
    Except Str ℚ :=
  if ¬ (creatinine > 0) then .error ("créatininémie doit être positive".data)
  else if ¬ (weight > 0) then .error ("poids doit être positif".data)
  else if ¬ (age > 0) then .error ("âge doit être positif".data)
  else
    let clcr := clcr_value creatinine age weight sex
    if ¬ (clcr ≥ 0) then .error ("ClCr négative".data) else .ok clcr

/-- Embeds `renal.adjust_for_renal`: three-tier recommendation on the clearance. -/
def adjust_for_renal (creatinine : ℚ) (age : Int) (weight : ℚ) (sex : Str) :
    Except Str Str :=
  match calculate_clcr creatinine age weight sex with
  | .error e => .error e
  | .ok clcr =>
    if ¬ (clcr ≥ 0) then .error ("ClCr doit être non-négative".data)
    else if clcr < 30 then .ok ("Contre-indication rénale".data)
    else if clcr < 60 then .ok ("Réduction 50% posologique".data)
    else .ok ("Posologie normale".data)

/-- The anticholinergic-burden warning `main.run_bmp` appends:
`f"Charge anticholinergique élevée : score {burden} (CIA/ACB ≥3)"`. -/
def _burden_warning (burden : Int) : Str :=
  ("Charge anticholinergique élevée : score ".data) ++ (toString burden).data ++
  (" (CIA/ACB ≥3)".data)

/-- The generic interaction-review recommendation of `main.run_bmp`. -/
def _REVIEW_NOTE : Str :=
  ("Consulter les recommandations cliniques pour les interactions identifiées.".data)

/-- Embeds `bdpm_loader._FALLBACK`: the static CIP→DCI mapping used when no
SQLite or CSV BDPM extract is present. -/
def _FALLBACK : List (Str × Str) :=
  [("3400932716455".data, "PARACETAMOL".data),
   ("PARACETAMOL".data, "PARACETAMOL".data)]

/-- Embeds `bdpm_loader.normalize_drug` over the loaded CIP→DCI mapping:
`m.get(token.upper(), token.upper())` — no trim, no brand-table fallback.
The mapping is what `get_mapping()` loaded (SQLite extract, else CSV extract,
else `_FALLBACK`; that file loading is abstracted to the mapping itself). -/
def normalize_drug (mapping : List (Str × Str)) (token : Str) : Str :=
  (strLookup mapping (upper token)).getD (upper token)

/-- The result-composition core of `main.run_bmp`, given the collaborator
data (interaction catalog, loaded extra rules, burden table, the CIP→DCI
mapping behind `normalize_drug` — `main` imports `normalize_drug` from
`bdpm_loader` as its `normalize` — and the summarizer as a function):
normalize the raw names, run detection and rule evaluation
(`problems = interactions + stops`), append the burden warning when the
score is ≥ 3, seed recommendations with the START descriptions, append the
review note when any interaction was found, and prepend the narrative of the
summarizer. HTTP plumbing is out of scope. -/
def run_bmp (catalog : List ((Str × Str) × Str)) (extra : List Rule)
    (scores : List (Str × Int))
    (summaryFn : Demographics → List Str → List Str → Str)
    (mapping : List (Str × Str)) (demo : Demographics) (medsRaw : List Str) :
    Except Str (List Str × List Str) :=
  let meds_norm := medsRaw.map (normalize_drug mapping)
  match evaluate_rules extra demo meds_norm with
  | .error e => .error e
  | .ok (stops, starts) =>
    let interactions := detect_interactions catalog meds_norm
    let problems := interactions ++ stops
    let burden := compute_burden_score scores meds_norm
    let problems2 := if burden ≥ 3 then problems ++ [_burden_warning burden]
                     else problems
    let recommendations := starts
    let recommendations2 := if interactions.isEmpty then recommendations
                            else recommendations ++ [_REVIEW_NOTE]
    .ok (problems2, summaryFn demo meds_norm problems2 :: recommendations2)

/-- States that `x` occurs at least twice in `l`, phrased through `filter` so
that it is obviously permutation-invariant. -/
def occursTwice (l : List Str) (x : Str) : Prop :=
  2 ≤ (l.filter (fun z => z = x)).length

/-! Character and string-order infrastructure. -/

theorem toNat_ofNat_of_valid {n : Nat} (h : n.isValidChar) :
    (Char.ofNat n).toNat = n := by
  unfold Char.ofNat
  rw [dif_pos h]
  rfl

theorem Char_toUpper_toUpper (c : Char) : c.toUpper.toUpper = c.toUpper := by
  unfold Char.toUpper
  by_cases h : c.toNat ≥ 97 ∧ c.toNat ≤ 122
  · rw [if_pos h]
    have hval : (c.toNat - 32).isValidChar := Or.inl (by omega)
    have hn : (Char.ofNat (c.toNat - 32)).toNat = c.toNat - 32 :=
      toNat_ofNat_of_valid hval
    rw [if_neg (by rw [hn]; omega)]
  · rw [if_neg h, if_neg h]

theorem upper_upper (s : Str) : upper (upper s) = upper s := by
  induction s with
  | nil => rfl
  | cons c t ih => simp [upper, Char_toUpper_toUpper]

theorem strLt_asymm {a : Str} : ∀ {b : Str}, strLt a b = true → strLt b a = false := by
  induction a with
  | nil =>
    intro b h
    cases b with
    | nil => simp [strLt] at h
    | cons y ys => simp [strLt]
  | cons x xs ih =>
    intro b h
    cases b with
    | nil => simp [strLt] at h
    | cons y ys =>
      simp only [strLt] at h ⊢
      by_cases h1 : x < y
      · rw [if_neg (lt_asymm h1), if_pos h1]
      · by_cases h2 : y < x
        · rw [if_neg h1, if_pos h2] at h
          exact absurd h (by simp)
        · rw [if_neg h1, if_neg h2] at h
          rw [if_neg h2, if_neg h1]
          exact ih h

theorem strLt_conn : ∀ {a b : Str}, strLt a b = false → strLt b a = false → a = b
  | [], [] => fun _ _ => rfl
  | [], _ :: _ => by intro h _; simp [strLt] at h
  | _ :: _, [] => by intro _ h; simp [strLt] at h
  | x :: xs, y :: ys => by
    intro h1 h2
    simp only [strLt] at h1 h2
    by_cases hxy : x < y
    · rw [if_pos hxy] at h1; exact absurd h1 (by simp)
    by_cases hyx : y < x
    · rw [if_neg hxy, if_pos hyx] at h1
      rw [if_pos hyx] at h2; exact absurd h2 (by simp)
    rw [if_neg hxy, if_neg hyx] at h1
    rw [if_neg hyx, if_neg hxy] at h2
    have : x = y := le_antisymm (not_lt.mp hyx) (not_lt.mp hxy)
    rw [this, strLt_conn h1 h2]

theorem sortedPair2_comm (x y : Str) : sortedPair2 (x, y) = sortedPair2 (y, x) := by
  simp only [sortedPair2]
  by_cases h1 : strLt y x = true
  · rw [if_pos h1, if_neg (by rw [strLt_asymm h1]; simp)]
  · have h1' : strLt y x = false := by
      cases h : strLt y x
      · rfl
      · exact absurd h h1
    by_cases h2 : strLt x y = true
    · rw [if_neg h1, if_pos h2]
    · have h2' : strLt x y = false := by
        cases h : strLt x y
        · rfl
        · exact absurd h h2
      rw [if_neg h1, if_neg h2, strLt_conn h2' h1']

theorem sortedPair2_sorted (p : Str × Str) :
    strLt (sortedPair2 p).2 (sortedPair2 p).1 = false := by
  simp only [sortedPair2]
  by_cases h : strLt p.2 p.1 = true
  · rw [if_pos h]
    exact strLt_asymm h
  · rw [if_neg h]
    cases hc : strLt p.2 p.1
    · rfl
    · exact absurd hc h

theorem sortedPair2_cases (p : Str × Str) :
    sortedPair2 p = (p.1, p.2) ∨ sortedPair2 p = (p.2, p.1) := by
  simp only [sortedPair2]
  by_cases h : strLt p.2 p.1 = true
  · right; rw [if_pos h]
  · left; rw [if_neg h]

theorem key_comm (a b : Str) : _key a b = _key b a := by
  simp only [_key]
  exact sortedPair2_comm (upper a) (upper b)

theorem key_upper (a b : Str) : _key (upper a) (upper b) = _key a b := by
  simp only [_key, upper_upper]

theorem key_canonical (a b : Str) :
    upper (_key a b).1 = (_key a b).1 ∧ upper (_key a b).2 = (_key a b).2 ∧
    strLt (_key a b).2 (_key a b).1 = false := by
  refine ⟨?_, ?_, sortedPair2_sorted (upper a, upper b)⟩ <;>
    rcases sortedPair2_cases (upper a, upper b) with h | h <;>
      simp only [_key, h, upper_upper]

/-! Dict lemmas. -/

theorem dictLookup_mem {ν : Type} {d : List ((Str × Str) × ν)} {k : Str × Str}
    {v : ν} (h : dictLookup d k = some v) : (k, v) ∈ d := by
  induction d with
  | nil => simp [dictLookup] at h
  | cons kv rest ih =>
    obtain ⟨k', v'⟩ := kv
    simp only [dictLookup] at h
    by_cases he : k = k'
    · rw [if_pos he] at h
      cases h
      simp [he]
    · rw [if_neg he] at h
      simp [ih h]

theorem dictLookup_append_left {ν : Type} {d1 : List ((Str × Str) × ν)}
    {k : Str × Str} {v : ν} (h : dictLookup d1 k = some v)
    (d2 : List ((Str × Str) × ν)) : dictLookup (d1 ++ d2) k = some v := by
  induction d1 with
  | nil => simp [dictLookup] at h
  | cons kv rest ih =>
    obtain ⟨k', v'⟩ := kv
    simp only [dictLookup, List.cons_append] at h ⊢
    by_cases he : k = k'
    · rwa [if_pos he] at h ⊢
    · rw [if_neg he] at h ⊢
      exact ih h

/-! Detection-loop lemmas. -/

theorem mem_dedupKeys {k : Str × Str} :
    ∀ {ks seen : List (Str × Str)}, k ∈ dedupKeys seen ks ↔ k ∈ ks ∧ k ∉ seen := by
  intro ks
  induction ks with
  | nil => intro seen; simp [dedupKeys]
  | cons a t ih =>
    intro seen
    by_cases ha : a ∈ seen
    · rw [dedupKeys, if_pos ha, ih]
      constructor
      · rintro ⟨h1, h2⟩
        exact ⟨List.mem_cons_of_mem a h1, h2⟩
      · rintro ⟨h1, h2⟩
        rcases List.mem_cons.mp h1 with rfl | h1
        · exact absurd ha h2
        · exact ⟨h1, h2⟩
    · rw [dedupKeys, if_neg ha]
      constructor
      · intro h
        rcases List.mem_cons.mp h with rfl | h
        · exact ⟨List.mem_cons_self k t, ha⟩
        · obtain ⟨h1, h2⟩ := ih.mp h
          refine ⟨List.mem_cons_of_mem a h1, fun hc => h2 (List.mem_cons_of_mem a hc)⟩
      · rintro ⟨h1, h2⟩
        rcases List.mem_cons.mp h1 with rfl | h1
        · exact List.mem_cons_self k _
        · by_cases hk : k = a
          · subst hk; exact List.mem_cons_self k _
          · refine List.mem_cons_of_mem a (ih.mpr ⟨h1, fun hc => ?_⟩)
            rcases List.mem_cons.mp hc with h | h
            · exact hk h
            · exact h2 h

theorem nodup_dedupKeys : ∀ (ks seen : List (Str × Str)), (dedupKeys seen ks).Nodup := by
  intro ks
  induction ks with
  | nil => intro seen; simp [dedupKeys]
  | cons a t ih =>
    intro seen
    by_cases ha : a ∈ seen
    · rw [dedupKeys, if_pos ha]
      exact ih seen
    · rw [dedupKeys, if_neg ha]
      refine List.Nodup.cons (fun hc => ?_) (ih (a :: seen))
      exact (mem_dedupKeys.mp hc).2 (List.mem_cons_self a seen)

theorem mem_pairKeys_of_mem {l : List Str} {x y : Str}
    (hx : x ∈ l) (hy : y ∈ l) (hxy : x ≠ y) : _key x y ∈ pairKeys l := by
  induction l with
  | nil => cases hx
  | cons a t ih =>
    rw [pairKeys, List.mem_append]
    rcases List.mem_cons.mp hx with rfl | hx'
    · rcases List.mem_cons.mp hy with rfl | hy'
      · exact absurd rfl hxy
      · exact Or.inl (List.mem_map_of_mem (_key x) hy')
    · rcases List.mem_cons.mp hy with rfl | hy'
      · refine Or.inl ?_
        rw [key_comm]
        exact List.mem_map_of_mem (_key y) hx'
      · exact Or.inr (ih hx' hy')

theorem key_self_mem_pairKeys {l : List Str} {x : Str} (h : occursTwice l x) :
    _key x x ∈ pairKeys l := by
  induction l with
  | nil => simp [occursTwice] at h
  | cons a t ih =>
    rw [pairKeys, List.mem_append]
    by_cases hax : a = x
    · subst hax
      have hx : a ∈ t := by
        rw [occursTwice, List.filter_cons_of_pos (by simp)] at h
        simp only [List.length_cons] at h
        have hne : t.filter (fun z => z = a) ≠ [] := by
          intro hc
          rw [hc] at h
          simp at h
        obtain ⟨w, hw⟩ := List.exists_mem_of_ne_nil _ hne
        obtain ⟨hw1, hw2⟩ := List.mem_filter.mp hw
        exact (by simpa using hw2 : w = a) ▸ hw1
      exact Or.inl (List.mem_map_of_mem (_key a) hx)
    · rw [occursTwice, List.filter_cons_of_neg (by simpa using fun hc => hax hc)] at h
      exact Or.inr (ih h)

theorem mem_pairKeys_iff {l : List Str} {k : Str × Str} :
    k ∈ pairKeys l ↔
      ∃ x y, _key x y = k ∧
        ((x ≠ y ∧ x ∈ l ∧ y ∈ l) ∨ (x = y ∧ occursTwice l x)) := by
  constructor
  · intro h
    induction l with
    | nil => cases h
    | cons a t ih =>
      rw [pairKeys, List.mem_append] at h
      rcases h with h | h
      · obtain ⟨w, hw, hk⟩ := List.mem_map.mp h
        by_cases haw : a = w
        · subst haw
          refine ⟨a, a, hk, Or.inr ⟨rfl, ?_⟩⟩
          rw [occursTwice, List.filter_cons_of_pos (by simp)]
          simp only [List.length_cons]
          have : (t.filter (fun z => z = a)).length ≥ 1 := by
            have : a ∈ t.filter (fun z => z = a) :=
              List.mem_filter.mpr ⟨hw, by simp⟩
            exact List.length_pos.mpr (List.ne_nil_of_mem this)
          omega
        · exact ⟨a, w, hk, Or.inl ⟨haw, List.mem_cons_self a t,
            List.mem_cons_of_mem a hw⟩⟩
      · obtain ⟨x, y, hk, hc⟩ := ih h
        refine ⟨x, y, hk, ?_⟩
        rcases hc with ⟨hxy, hx, hy⟩ | ⟨hxy, htw⟩
        · exact Or.inl ⟨hxy, List.mem_cons_of_mem a hx, List.mem_cons_of_mem a hy⟩
        · refine Or.inr ⟨hxy, ?_⟩
          rw [occursTwice] at htw ⊢
          by_cases hax : (a = x)
          · rw [List.filter_cons_of_pos (by simpa using hax)]
            simp only [List.length_cons]
            omega
          · rwa [List.filter_cons_of_neg (by simpa using hax)]
  · rintro ⟨x, y, hk, ⟨hxy, hx, hy⟩ | ⟨rfl, htw⟩⟩
    · exact hk ▸ mem_pairKeys_of_mem hx hy hxy
    · exact hk ▸ key_self_mem_pairKeys htw

theorem mem_pairKeys_perm {l l' : List Str} (h : l.Perm l') (k : Str × Str) :
    k ∈ pairKeys l ↔ k ∈ pairKeys l' := by
  rw [mem_pairKeys_iff, mem_pairKeys_iff]
  have htw : ∀ x, occursTwice l x ↔ occursTwice l' x := by
    intro x
    rw [occursTwice, occursTwice, (h.filter (fun z => z = x)).length_eq]
  constructor <;> rintro ⟨x, y, hk, hc⟩ <;> refine ⟨x, y, hk, ?_⟩
  · rcases hc with ⟨hxy, hx, hy⟩ | ⟨hxy, hc2⟩
    · exact Or.inl ⟨hxy, h.mem_iff.mp hx, h.mem_iff.mp hy⟩
    · exact Or.inr ⟨hxy, (htw x).mp hc2⟩
  · rcases hc with ⟨hxy, hx, hy⟩ | ⟨hxy, hc2⟩
    · exact Or.inl ⟨hxy, h.mem_iff.mpr hx, h.mem_iff.mpr hy⟩
    · exact Or.inr ⟨hxy, (htw x).mpr hc2⟩

theorem mem_detect_iff {catalog : List ((Str × Str) × Str)} {L : List Str}
    {d : Str} :
    d ∈ detect_interactions catalog L ↔
      ∃ k ∈ pairKeys (L.map upper), dictLookup catalog k = some d := by
  simp only [detect_interactions, List.mem_filterMap]
  constructor
  · rintro ⟨k, hk, hl⟩
    exact ⟨k, (mem_dedupKeys.mp hk).1, hl⟩
  · rintro ⟨k, hk, hl⟩
    exact ⟨k, mem_dedupKeys.mpr ⟨hk, by simp⟩, hl⟩

theorem filter_length_one_of_nodup {l : List (Str × Str)} {a : Str × Str}
    (hn : l.Nodup) (ha : a ∈ l) : (l.filter (fun k => k = a)).length = 1 := by
  induction l with
  | nil => cases ha
  | cons b t ih =>
    rcases List.mem_cons.mp ha with rfl | hat
    · rw [List.filter_cons_of_pos (by simp)]
      have hnil : t.filter (fun k => k = a) = [] := by
        rw [List.filter_eq_nil_iff]
        intro w hw hc
        exact (List.nodup_cons.mp hn).1
          ((by simpa using hc : w = a) ▸ hw)
      simp [hnil]
    · rw [List.filter_cons_of_neg]
      · exact ih (List.nodup_cons.mp hn).2 hat
      · simp only [decide_eq_true_eq]
        rintro rfl
        exact (List.nodup_cons.mp hn).1 hat

/-- The static interaction table has no self-pair key `(X, X)`. -/
theorem static_no_self_pairs (x : Str) :
    dictLookup _INTERACTIONS_static (x, x) = none := by
  cases h : dictLookup _INTERACTIONS_static (x, x) with
  | none => rfl
  | some v =>
    exfalso
    have hmem := dictLookup_mem h
    have hne : ∀ kv ∈ _INTERACTIONS_static, kv.1.1 ≠ kv.1.2 := by decide
    exact hne _ hmem rfl

/-- C1: if distinct substances `A` and `B` (distinct after uppercasing) both
occur anywhere in `L` in any letter case and possibly repeatedly, and their
canonical key is in the catalog, then `detect_interactions` tests that key
exactly once (so its description is reported exactly once arising from that
pair, however often either substance repeats). -/
theorem C1_pair_reported_once (catalog : List ((Str × Str) × Str))
    (L : List Str) (A B desc : Str) (hAB : upper A ≠ upper B)
    (hA : ∃ a ∈ L, upper a = upper A) (hB : ∃ b ∈ L, upper b = upper B)
    (hcat : dictLookup catalog (_key A B) = some desc) :
    ((dedupKeys [] (pairKeys (L.map upper))).filter
        (fun k => k = _key A B)).length = 1 ∧
    desc ∈ detect_interactions catalog L := by
  obtain ⟨a, haL, ha⟩ := hA
  obtain ⟨b, hbL, hb⟩ := hB
  have hxa : upper A ∈ L.map upper := ha ▸ List.mem_map_of_mem upper haL
  have hxb : upper B ∈ L.map upper := hb ▸ List.mem_map_of_mem upper hbL
  have hkmem : _key A B ∈ pairKeys (L.map upper) := by
    have h := mem_pairKeys_of_mem hxa hxb hAB
    rwa [key_upper] at h
  refine ⟨?_, mem_detect_iff.mpr ⟨_key A B, hkmem, hcat⟩⟩
  have hd : _key A B ∈ dedupKeys [] (pairKeys (L.map upper)) :=
    mem_dedupKeys.mpr ⟨hkmem, by simp⟩
  exact filter_length_one_of_nodup (nodup_dedupKeys _ _) hd

theorem C1_witness :
    ((dedupKeys []
        (pairKeys ([("Lisinopril".data), ("ibuprofen".data), ("LISINOPRIL".data)].map
          upper))).filter
        (fun k => k = _key ("lisinopril".data) ("Ibuprofen".data))).length = 1 ∧
    ("Association d’un IEC et d’un AINS : risque d’insuffisance rénale aiguë.".data) ∈
      detect_interactions _INTERACTIONS_static
        [("Lisinopril".data), ("ibuprofen".data), ("LISINOPRIL".data)] :=
  C1_pair_reported_once _INTERACTIONS_static
    [("Lisinopril".data), ("ibuprofen".data), ("LISINOPRIL".data)]
    ("lisinopril".data) ("Ibuprofen".data)
    ("Association d’un IEC et d’un AINS : risque d’insuffisance rénale aiguë.".data)
    (by decide) (by decide) (by decide) (by decide)

/-- C2: the set of descriptions reported by `detect_interactions` is
invariant under any permutation of the medication list. -/
theorem C2_detect_perm_invariant (catalog : List ((Str × Str) × Str))
    (L L' : List Str) (h : L.Perm L') (d : Str) :
    d ∈ detect_interactions catalog L ↔ d ∈ detect_interactions catalog L' := by
  rw [mem_detect_iff, mem_detect_iff]
  constructor
  · rintro ⟨k, hk, hl⟩
    exact ⟨k, (mem_pairKeys_perm (h.map upper) k).mp hk, hl⟩
  · rintro ⟨k, hk, hl⟩
    exact ⟨k, (mem_pairKeys_perm (h.map upper) k).mpr hk, hl⟩

theorem C2_witness :
    ("Association d’un IEC et d’un AINS : risque d’insuffisance rénale aiguë.".data) ∈
        detect_interactions _INTERACTIONS_static
          [("lisinopril".data), ("ibuprofen".data)] ↔
      ("Association d’un IEC et d’un AINS : risque d’insuffisance rénale aiguë.".data) ∈
        detect_interactions _INTERACTIONS_static
          [("ibuprofen".data), ("lisinopril".data)] :=
  C2_detect_perm_invariant _INTERACTIONS_static
    [("lisinopril".data), ("ibuprofen".data)]
    [("ibuprofen".data), ("lisinopril".data)]
    (List.Perm.swap ("ibuprofen".data) ("lisinopril".data) [])
    ("Association d’un IEC et d’un AINS : risque d’insuffisance rénale aiguë.".data)

/-- C5 counterexample: the code does look up pair keys formed from two
occurrences of one substance, and the CSV thesaurus loader can produce a
self-pair key, in which case `detect_interactions` reports a substance
against another occurrence of itself: with the thesaurus row `X;X;C`, the
merged catalog holds the key `(X, X)` and `detect_interactions` on
`["x", "x"]` reports it. -/
theorem C5_counterexample :
    detect_interactions (_INTERACTIONS (_load_from_csv
        [[("X".data), ("X".data), ("C".data)]])) [("x".data), ("x".data)] =
      [("Interaction ANSM (C)".data)] ∧
    dictLookup (_INTERACTIONS (_load_from_csv [[("X".data), ("X".data), ("C".data)]]))
        ("X".data, ("X".data)) = some ("Interaction ANSM (C)".data) := by
  exact ⟨by decide, by decide⟩

/-- C5 (amended): self keys are looked up, but the static catalog has no
self-pair key, and whenever the merged catalog has no self-pair key every
report of `detect_interactions` arises from a key with two distinct
components — so no substance is ever reported against another occurrence of
itself. -/
theorem C5_no_self_report (catalog : List ((Str × Str) × Str)) (L : List Str)
    (d : Str) (hself : ∀ x : Str, dictLookup catalog (x, x) = none) :
    (∀ x : Str, dictLookup _INTERACTIONS_static (x, x) = none) ∧
    (d ∈ detect_interactions catalog L →
      ∃ k : Str × Str, k.1 ≠ k.2 ∧ dictLookup catalog k = some d) := by
  refine ⟨static_no_self_pairs, fun hd => ?_⟩
  obtain ⟨k, hk, hl⟩ := mem_detect_iff.mp hd
  obtain ⟨k1, k2⟩ := k
  refine ⟨(k1, k2), fun hc => ?_, hl⟩
  have hc' : k1 = k2 := hc
  subst hc'
  rw [hself k1] at hl
  cases hl

theorem C5_witness :
    (∀ x : Str, dictLookup _INTERACTIONS_static (x, x) = none) ∧
    ("Association d’un IEC et d’un AINS : risque d’insuffisance rénale aiguë.".data ∈
        detect_interactions _INTERACTIONS_static
          [("lisinopril".data), ("ibuprofen".data)] →
      ∃ k : Str × Str, k.1 ≠ k.2 ∧
        dictLookup _INTERACTIONS_static k =
          some ("Association d’un IEC et d’un AINS : risque d’insuffisance rénale aiguë.".data)) :=
  C5_no_self_report _INTERACTIONS_static
    [("lisinopril".data), ("ibuprofen".data)]
    ("Association d’un IEC et d’un AINS : risque d’insuffisance rénale aiguë.".data)
    static_no_self_pairs

/-! Catalog key-shape lemmas for C3. -/

theorem sortedPair2_of_sorted {p : Str × Str} (h : strLt p.2 p.1 = false) :
    sortedPair2 p = p := by
  obtain ⟨x, y⟩ := p
  simp only [sortedPair2]
  rw [if_neg (by simp only at h; rw [h]; simp)]

theorem mem_foldl_iterStep :
    ∀ (rows : List (List Str)) (init : List ((Str × Str) × Str))
      (kv : (Str × Str) × Str), kv ∈ rows.foldl iterStep init →
      kv ∈ init ∨ ∃ a b, kv.1 = _order a b := by
  intro rows
  induction rows with
  | nil => intro init kv h; exact Or.inl h
  | cons r rs ih =>
    intro init kv h
    rw [List.foldl_cons] at h
    rcases ih _ kv h with hin | hkey
    · simp only [iterStep] at hin
      split at hin
      · exact Or.inl hin
      · split at hin
        · exact Or.inl hin
        · rcases List.mem_cons.mp hin with rfl | hin'
          · exact Or.inr ⟨_, _, rfl⟩
          · exact Or.inl hin'
    · exact Or.inr hkey

theorem mem_foldl_pdfStep :
    ∀ (pairs : List (Str × Str)) (init : List ((Str × Str) × Str))
      (kv : (Str × Str) × Str), kv ∈ pairs.foldl pdfStep init →
      kv ∈ init ∨ ∃ a b, kv.1 = _order a b := by
  intro pairs
  induction pairs with
  | nil => intro init kv h; exact Or.inl h
  | cons p ps ih =>
    intro init kv h
    rw [List.foldl_cons] at h
    rcases ih _ kv h with hin | hkey
    · rw [pdfStep] at hin
      rcases List.mem_cons.mp hin with rfl | hin'
      · exact Or.inr ⟨_, _, rfl⟩
      · exact Or.inl hin'
    · exact Or.inr hkey

theorem mem_get_interactions_key {csvs : List (List (List Str))}
    {pdfs : List (List (Str × Str))} {kv : (Str × Str) × Str}
    (h : kv ∈ get_interactions csvs pdfs) : ∃ a b, kv.1 = _order a b := by
  rw [get_interactions] at h
  cases hf : ((csvs.map _load_from_csv) ++ (pdfs.map _load_from_pdf)).find?
      (fun d => !d.isEmpty) with
  | none => rw [hf] at h; cases h
  | some dct =>
    rw [hf] at h
    simp only [Option.getD_some] at h
    have hmem := List.mem_of_find?_eq_some hf
    rw [List.mem_append] at hmem
    rcases hmem with hc | hp
    · obtain ⟨rows, _, rfl⟩ := List.mem_map.mp hc
      rcases mem_foldl_iterStep rows [] kv h with hin | hkey
      · cases hin
      · exact hkey
    · obtain ⟨pairs, _, rfl⟩ := List.mem_map.mp hp
      rcases mem_foldl_pdfStep pairs [] kv h with hin | hkey
      · cases hin
      · exact hkey

theorem order_canonical (a b : Str) :
    upper (_order a b).1 = (_order a b).1 ∧ upper (_order a b).2 = (_order a b).2 ∧
    strLt (_order a b).2 (_order a b).1 = false := key_canonical a b

theorem static_canonical :
    ∀ kv ∈ _INTERACTIONS_static,
      upper kv.1.1 = kv.1.1 ∧ upper kv.1.2 = kv.1.2 ∧
      strLt kv.1.2 kv.1.1 = false := by decide

/-- C3: every key of the merged interaction catalog is a canonical
sorted-uppercase pair (`(A, B)` and `(B, A)` collide through the symmetric
`_order`), and on a key present in both the static table and the loaded
thesaurus the merged catalog returns the thesaurus description. -/
theorem C3_catalog_canonical_and_overlay (csvs : List (List (List Str)))
    (pdfs : List (List (Str × Str))) (k : Str × Str) (v w : Str) :
    ((∃ u, dictLookup (_INTERACTIONS (get_interactions csvs pdfs)) k = some u) →
      upper k.1 = k.1 ∧ upper k.2 = k.2 ∧ strLt k.2 k.1 = false ∧
      _order k.1 k.2 = k) ∧
    (∀ a b : Str, _order a b = _order b a) ∧
    (dictLookup (get_interactions csvs pdfs) k = some v →
      dictLookup _INTERACTIONS_static k = some w →
      dictLookup (_INTERACTIONS (get_interactions csvs pdfs)) k = some v) := by
  refine ⟨?_, ?_, ?_⟩
  · rintro ⟨u, hu⟩
    have hmem := dictLookup_mem hu
    rw [_INTERACTIONS, List.mem_append] at hmem
    have hcanon : upper k.1 = k.1 ∧ upper k.2 = k.2 ∧ strLt k.2 k.1 = false := by
      rcases hmem with hth | hst
      · obtain ⟨a, b, hk⟩ := mem_get_interactions_key hth
        have h := order_canonical a b
        rw [← hk] at h
        exact h
      · exact static_canonical _ hst
    obtain ⟨h1, h2, h3⟩ := hcanon
    refine ⟨h1, h2, h3, ?_⟩
    show sortedPair2 (upper k.1, upper k.2) = k
    rw [h1, h2]
    exact sortedPair2_of_sorted h3
  · intro a b
    exact sortedPair2_comm (upper a) (upper b)
  · intro h1 _
    rw [_INTERACTIONS]
    exact dictLookup_append_left h1 _

theorem C3_witness :
    (upper ("IBUPROFEN".data) = ("IBUPROFEN".data) ∧
      upper ("LISINOPRIL".data) = ("LISINOPRIL".data) ∧
      strLt ("LISINOPRIL".data) ("IBUPROFEN".data) = false ∧
      _order ("IBUPROFEN".data) ("LISINOPRIL".data) =
        ("IBUPROFEN".data, ("LISINOPRIL".data))) ∧
    _order ("warfarin".data) ("Ibuprofen".data) = _order ("Ibuprofen".data) ("warfarin".data) ∧
    dictLookup (_INTERACTIONS (get_interactions
        [[[(" lisinopril ".data), ("IBUPROFEN".data), ("c ".data)]]] []))
      ("IBUPROFEN".data, ("LISINOPRIL".data)) = some ("Interaction ANSM (C)".data) :=
  ⟨(C3_catalog_canonical_and_overlay
      [[[(" lisinopril ".data), ("IBUPROFEN".data), ("c ".data)]]] []
      ("IBUPROFEN".data, ("LISINOPRIL".data))
      ("Interaction ANSM (C)".data)
      ("Association d’un IEC et d’un AINS : risque d’insuffisance rénale aiguë.".data)).1
      ⟨("Interaction ANSM (C)".data), by decide⟩,
   (C3_catalog_canonical_and_overlay [] [] ("A".data, ("B".data)) ("x".data)
      ("y".data)).2.1 ("warfarin".data) ("Ibuprofen".data),
   (C3_catalog_canonical_and_overlay
      [[[(" lisinopril ".data), ("IBUPROFEN".data), ("c ".data)]]] []
      ("IBUPROFEN".data, ("LISINOPRIL".data))
      ("Interaction ANSM (C)".data)
      ("Association d’un IEC et d’un AINS : risque d’insuffisance rénale aiguë.".data)).2.2
      (by decide) (by decide)⟩

/-! Rule-engine lemmas for C6 and C10. -/

theorem evalLoop_cons (demo : Demographics) (meds : List Str) (r : Rule)
    (rs : List Rule) :
    evalLoop demo meds (r :: rs) =
      match r.applies demo meds with
      | .error e => .error e
      | .ok fired =>
        match evalLoop demo meds rs with
        | .error e => .error e
        | .ok (stops, starts) =>
          if fired then
            if r.phase = ("START".data) then .ok (stops, r.description :: starts)
            else .ok (r.description :: stops, starts)
          else .ok (stops, starts) := rfl

theorem evalLoop_ok_of_age (demo : Demographics) (h : demo.age?.isSome = true)
    (meds : List Str) :
    ∀ rs : List Rule, ∃ p, evalLoop demo meds rs = .ok p := by
  intro rs
  induction rs with
  | nil => exact ⟨([], []), rfl⟩
  | cons r t ih =>
    obtain ⟨⟨stops, starts⟩, hp⟩ := ih
    cases hf : r.predicate demo meds
    · exact ⟨(stops, starts), by simp [evalLoop, Rule.applies, h, hp, hf]⟩
    · by_cases hph : r.phase = ("START".data)
      · exact ⟨(stops, r.description :: starts),
          by simp [evalLoop, Rule.applies, h, hp, hf, hph]⟩
      · exact ⟨(r.description :: stops, starts),
          by simp [evalLoop, Rule.applies, h, hp, hf, hph]⟩

/-- C6: evaluating the rules with a demographics dict lacking `age` raises
the `Missing age in demographics` assertion; with `age` present it returns
normally with a (STOPP, START) pair, whatever extra rules are loaded. -/
theorem C6_age_precondition (extra : List Rule) (demo : Demographics)
    (meds : List Str) :
    (demo.age? = none →
      evaluate_rules extra demo meds =
        .error ("Missing age in demographics".data)) ∧
    (demo.age?.isSome = true →
      ∃ stops starts, evaluate_rules extra demo meds = .ok (stops, starts)) := by
  constructor
  · intro h
    simp [evaluate_rules, _RULES, evalLoop, Rule.applies, h]
  · intro h
    obtain ⟨⟨stops, starts⟩, hp⟩ := evalLoop_ok_of_age demo h meds (_RULES extra)
    exact ⟨stops, starts, hp⟩

theorem C6_witness :
    (evaluate_rules [] ⟨none⟩ [("IBUPROFEN".data)] =
      .error ("Missing age in demographics".data)) ∧
    (∃ stops starts,
      evaluate_rules [] ⟨some 70⟩ [("IBUPROFEN".data)] = .ok (stops, starts)) :=
  ⟨(C6_age_precondition [] ⟨none⟩ [("IBUPROFEN".data)]).1 rfl,
   (C6_age_precondition [] ⟨some 70⟩ [("IBUPROFEN".data)]).2 rfl⟩

/-- C8: the burden score is the sum, over all list elements with duplicates
included, of the table value of the uppercased element (0 when absent), so it
is additive over concatenation and case-insensitive. -/
theorem C8_burden_additive_case_insensitive (scores : List (Str × Int))
    (L1 L2 : List Str) (s t : Str) (h : upper s = upper t) :
    compute_burden_score scores (L1 ++ L2) =
      compute_burden_score scores L1 + compute_burden_score scores L2 ∧
    compute_burden_score scores [s] = compute_burden_score scores [t] ∧
    compute_burden_score scores L1 =
      (L1.map (fun m => (strLookup scores (upper m)).getD 0)).sum := by
  refine ⟨?_, ?_, rfl⟩
  · simp [compute_burden_score]
  · simp [compute_burden_score, h]

theorem C8_witness :
    compute_burden_score [("ASPIRIN".data, (2 : Int)), ("IBUPROFEN".data, 4)]
        ([("aspirin".data)] ++ [("ibuprofen".data), ("unknown".data)]) =
      compute_burden_score [("ASPIRIN".data, (2 : Int)), ("IBUPROFEN".data, 4)]
          [("aspirin".data)] +
        compute_burden_score [("ASPIRIN".data, (2 : Int)), ("IBUPROFEN".data, 4)]
          [("ibuprofen".data), ("unknown".data)] ∧
    compute_burden_score [("ASPIRIN".data, (2 : Int)), ("IBUPROFEN".data, 4)]
        [("X".data)] =
      compute_burden_score [("ASPIRIN".data, (2 : Int)), ("IBUPROFEN".data, 4)]
        [("x".data)] ∧
    compute_burden_score [("ASPIRIN".data, (2 : Int)), ("IBUPROFEN".data, 4)]
        [("aspirin".data)] =
      ([("aspirin".data)].map (fun m =>
        (strLookup [("ASPIRIN".data, (2 : Int)), ("IBUPROFEN".data, 4)]
          (upper m)).getD 0)).sum :=
  C8_burden_additive_case_insensitive
    [("ASPIRIN".data, (2 : Int)), ("IBUPROFEN".data, 4)]
    [("aspirin".data)] [("ibuprofen".data), ("unknown".data)]
    ("X".data) ("x".data) (by decide)

/-- C10: the static anticholinergic criterion A1 fires for age ≥ 65 — in
particular at exactly 65, despite its description reading `>65 ans` — putting
its description in the STOPP list whenever a listed anticholinergic is
present in any letter case; for age below 65 it never fires, and with no
extra rules its description never appears in the STOPP list. -/
theorem C10_anticholinergic_age_inclusive (extra : List Rule)
    (demo : Demographics) (meds : List Str) (m : Str) (a : Int) :
    (demo.age? = some a → 65 ≤ a → m ∈ meds →
      (upper m = ("DIPHENHYDRAMINE".data) ∨ upper m = ("DEXCHLORPHENIRAMINE".data) ∨
        upper m = ("OXYBUTYNIN".data)) →
      ∃ stops starts, evaluate_rules extra demo meds = .ok (stops, starts) ∧
        ("Anticholinergic chez >65 ans".data) ∈ stops) ∧
    (demo.age? = some a → a < 65 → _rule_A1 demo meds = false) ∧
    (demo.age? = some a → a < 65 →
      ∀ stops starts, evaluate_rules [] demo meds = .ok (stops, starts) →
        ("Anticholinergic chez >65 ans".data) ∉ stops) := by
  have hA1false : demo.age? = some a → a < 65 → _rule_A1 demo meds = false := by
    intro hage hlt
    simp [_rule_A1, hage, hlt]
  refine ⟨?_, hA1false, ?_⟩
  · intro hage h65 hm htgt
    have hsome : demo.age?.isSome = true := by rw [hage]; rfl
    have hA1 : _rule_A1 demo meds = true := by
      rw [_rule_A1]
      rw [hage]
      simp only [Option.getD_some]
      rw [if_neg (by omega : ¬ a < 65)]
      rw [has_med, List.any_eq_true]
      refine ⟨m, hm, ?_⟩
      rcases htgt with h | h | h <;> simp [h]
    obtain ⟨⟨stops', starts'⟩, hp⟩ :=
      evalLoop_ok_of_age demo hsome meds (ruleB2 :: extra)
    refine ⟨("Anticholinergic chez >65 ans".data) :: stops', starts', ?_,
      List.mem_cons_self _ _⟩
    show evalLoop demo meds (ruleA1 :: ruleB2 :: extra) = _
    have happ : ruleA1.applies demo meds = .ok true := by
      rw [Rule.applies, if_pos hsome]
      rw [show ruleA1.predicate = _rule_A1 from rfl, hA1]
    rw [evalLoop_cons, happ, hp]
    simp [ruleA1]
  · intro hage hlt stops starts hev
    have hsome : demo.age?.isSome = true := by rw [hage]; rfl
    have hA1 := hA1false hage hlt
    have hcomp : evaluate_rules [] demo meds =
        .ok ((if _rule_B2 demo meds then [("IEC + supplément de potassium".data)]
              else []), []) := by
      cases hb : _rule_B2 demo meds <;>
        simp [evaluate_rules, _RULES, evalLoop, Rule.applies, hsome, hA1, hb,
          ruleA1, ruleB2]
    rw [hcomp] at hev
    cases hb : _rule_B2 demo meds <;> rw [hb] at hev <;>
      simp only [if_true, if_false, Bool.false_eq_true, Bool.true_eq_false,
        reduceIte, Except.ok.injEq, Prod.mk.injEq] at hev <;>
      · obtain ⟨h1, -⟩ := hev
        rw [← h1]
        decide

theorem C10_witness :
    (∃ stops starts,
      evaluate_rules [] ⟨some 65⟩ [("oxybutynin".data)] = .ok (stops, starts) ∧
      ("Anticholinergic chez >65 ans".data) ∈ stops) ∧
    _rule_A1 ⟨some 64⟩ [("oxybutynin".data)] = false ∧
    (∀ stops starts,
      evaluate_rules [] ⟨some 64⟩ [("oxybutynin".data)] = .ok (stops, starts) →
      ("Anticholinergic chez >65 ans".data) ∉ stops) :=
  ⟨(C10_anticholinergic_age_inclusive [] ⟨some 65⟩ [("oxybutynin".data)]
      ("oxybutynin".data) 65).1 rfl (by decide) (by decide) (by decide),
   (C10_anticholinergic_age_inclusive [] ⟨some 64⟩ [("oxybutynin".data)]
      ("oxybutynin".data) 64).2.1 rfl (by decide),
   (C10_anticholinergic_age_inclusive [] ⟨some 64⟩ [("oxybutynin".data)]
      ("oxybutynin".data) 64).2.2 rfl (by decide)⟩

/-- C4 counterexample: when the BDPM "Spécialités" file is absent,
`get_repository` fails its existence assertion and `normalize` propagates the
failure instead of returning a value — so unavailability of the external
reference data does make `normalize` fail, contradicting the claim. -/
theorem C4_counterexample :
    normalize ⟨false, true, [], []⟩ ("ASPIRINE".data) =
      .error ("BDPM Spécialités introuvable".data) ∧
    ¬ ∃ v, normalize ⟨false, true, [], []⟩ ("ASPIRINE".data) = .ok v := by
  refine ⟨rfl, ?_⟩
  rw [show normalize ⟨false, true, [], []⟩ ("ASPIRINE".data) =
      .error ("BDPM Spécialités introuvable".data) from rfl]
  rintro ⟨v, hv⟩
  cases hv

/-- C4 (amended): when both BDPM reference files exist (so repository
construction passes its assertions) and both parse without raising — the
Spécialités file is non-empty with a non-blank first line, and the
Compositions file is non-empty — `normalize` always returns a value,
following the cascade: a non-empty repository resolution wins, otherwise the
static brand/misspelling table, otherwise the trimmed-uppercased input.
When the data is unavailable or malformed, `normalize` does fail: the source
catches only `UnicodeDecodeError`, so an existing empty Spécialités file
raises `StopIteration`, a blank first line there raises `IndexError`, and an
empty Compositions file raises `StopIteration`, all propagating out of
`normalize`. -/
theorem C4_normalize_total_when_data_present (fs : BDPMData) (name : Str) :
    (fs.specExists = true → fs.compoExists = true → fs.specRows ≠ [] →
      fs.specRows.head? ≠ some [] → fs.compoRows ≠ [] →
      ∃ repo v, get_repository fs = .ok repo ∧ normalize fs name = .ok v ∧
        v = normalize_with (fun k => find_dci repo k) name ∧
        (∀ dci, find_dci repo (upper (strip name)) = some dci → dci ≠ [] →
          v = dci) ∧
        ((find_dci repo (upper (strip name)) = none ∨
          find_dci repo (upper (strip name)) = some []) →
          v = (strLookup _NORMALIZATION_MAP (upper (strip name))).getD
                (upper (strip name)))) ∧
    (fs.specExists = true → fs.compoExists = true → fs.specRows = [] →
      normalize fs name = .error ("StopIteration".data)) ∧
    (fs.specExists = true → fs.compoExists = true →
      fs.specRows.head? = some [] →
      normalize fs name = .error ("IndexError".data)) ∧
    (fs.specExists = true → fs.compoExists = true → fs.specRows ≠ [] →
      fs.specRows.head? ≠ some [] → fs.compoRows = [] →
      normalize fs name = .error ("StopIteration".data)) := by
  have hexists : fs.specExists = true → fs.compoExists = true →
      ∀ r : Except Str (List (Str × Str)), _parse_spec fs.specRows = r →
      get_repository fs =
        (match r with
         | .error e => .error e
         | .ok libelle_to_cis =>
           match _parse_compo fs.compoRows with
           | .error e => .error e
           | .ok cis_to_substances => .ok ⟨libelle_to_cis, cis_to_substances⟩) := by
    intro h1 h2 r hr
    rw [get_repository, if_neg (by rw [h1]; simp), if_neg (by rw [h2]; simp), hr]
  have hspec_ok : fs.specRows ≠ [] → fs.specRows.head? ≠ some [] →
      ∃ m, _parse_spec fs.specRows = .ok m := by
    intro h3 h4
    rcases hrows : fs.specRows with _ | ⟨header, restRows⟩
    · exact absurd hrows h3
    · rcases hhead : header with _ | ⟨h0, htail⟩
      · refine absurd ?_ h4
        rw [hrows, hhead]
        rfl
      · exact ⟨_, rfl⟩
  refine ⟨?_, ?_, ?_, ?_⟩
  · intro h1 h2 h3 h4 h5
    obtain ⟨mspec, hms⟩ := hspec_ok h3 h4
    have hcompo : ∃ mc, _parse_compo fs.compoRows = .ok mc := by
      rcases hrows : fs.compoRows with _ | ⟨header, restRows⟩
      · exact absurd hrows h5
      · exact ⟨_, rfl⟩
    obtain ⟨mcompo, hmc⟩ := hcompo
    have hrepo : get_repository fs = .ok ⟨mspec, mcompo⟩ := by
      rw [hexists h1 h2 _ hms, hmc]
    refine ⟨⟨mspec, mcompo⟩, _, hrepo, ?_, rfl, ?_, ?_⟩
    · unfold normalize
      rw [hrepo]
    · intro dci hf hne
      simp [normalize_with, hf, hne]
    · intro hf
      rcases hf with hf | hf <;> simp [normalize_with, hf]
  · intro h1 h2 h3
    have hms : _parse_spec fs.specRows = .error ("StopIteration".data) := by
      rw [h3]
      rfl
    unfold normalize
    rw [hexists h1 h2 _ hms]
  · intro h1 h2 h3
    obtain ⟨restRows, hrows⟩ : ∃ t, fs.specRows = [] :: t := by
      rcases hr : fs.specRows with _ | ⟨header, t⟩
      · rw [hr] at h3
        cases h3
      · rw [hr] at h3
        simp only [List.head?_cons, Option.some.injEq] at h3
        exact ⟨t, by rw [h3]⟩
    have hms : _parse_spec fs.specRows = .error ("IndexError".data) := by
      rw [hrows]
      rfl
    unfold normalize
    rw [hexists h1 h2 _ hms]
  · intro h1 h2 h3 h4 h5
    obtain ⟨mspec, hms⟩ := hspec_ok h3 h4
    have hmc : _parse_compo fs.compoRows = .error ("StopIteration".data) := by
      rw [h5]
      rfl
    unfold normalize
    rw [hexists h1 h2 _ hms, hmc]

theorem C4_witness :
    (∃ repo v,
      get_repository ⟨true, true, [[("123".data), ("doliprane".data)]],
        [[("123".data), ("x".data), ("y".data), ("paracetamol".data)]]⟩ =
          .ok repo ∧
      normalize ⟨true, true, [[("123".data), ("doliprane".data)]],
        [[("123".data), ("x".data), ("y".data), ("paracetamol".data)]]⟩
        (" doliprane ".data) = .ok v ∧
      v = normalize_with (fun k => find_dci repo k) (" doliprane ".data) ∧
      (∀ dci, find_dci repo (upper (strip (" doliprane ".data))) = some dci →
        dci ≠ [] → v = dci) ∧
      ((find_dci repo (upper (strip (" doliprane ".data))) = none ∨
        find_dci repo (upper (strip (" doliprane ".data))) = some []) →
        v = (strLookup _NORMALIZATION_MAP
              (upper (strip (" doliprane ".data)))).getD
              (upper (strip (" doliprane ".data))))) ∧
    normalize ⟨true, true, [],
        [[("123".data), ("x".data), ("y".data), ("paracetamol".data)]]⟩
      ("x".data) = .error ("StopIteration".data) ∧
    normalize ⟨true, true, [[]],
        [[("123".data), ("x".data), ("y".data), ("paracetamol".data)]]⟩
      ("x".data) = .error ("IndexError".data) ∧
    normalize ⟨true, true, [[("123".data), ("doliprane".data)]], []⟩
      ("x".data) = .error ("StopIteration".data) :=
  ⟨(C4_normalize_total_when_data_present
      ⟨true, true, [[("123".data), ("doliprane".data)]],
        [[("123".data), ("x".data), ("y".data), ("paracetamol".data)]]⟩
      (" doliprane ".data)).1 rfl rfl (by decide) (by decide) (by decide),
   (C4_normalize_total_when_data_present
      ⟨true, true, [],
        [[("123".data), ("x".data), ("y".data), ("paracetamol".data)]]⟩
      ("x".data)).2.1 rfl rfl rfl,
   (C4_normalize_total_when_data_present
      ⟨true, true, [[]],
        [[("123".data), ("x".data), ("y".data), ("paracetamol".data)]]⟩
      ("x".data)).2.2.1 rfl rfl rfl,
   (C4_normalize_total_when_data_present
      ⟨true, true, [[("123".data), ("doliprane".data)]], []⟩
      ("x".data)).2.2.2 rfl rfl (by decide) (by decide) rfl⟩

/-! Renal lemmas for C7. -/

theorem adjust_of_ok {c : ℚ} {a : Int} {w : ℚ} {s : Str} {clcr : ℚ}
    (h : calculate_clcr c a w s = .ok clcr) :
    adjust_for_renal c a w s =
      if ¬ (clcr ≥ 0) then .error ("ClCr doit être non-négative".data)
      else if clcr < 30 then .ok ("Contre-indication rénale".data)
      else if clcr < 60 then .ok ("Réduction 50% posologique".data)
      else .ok ("Posologie normale".data) := by
  unfold adjust_for_renal
  rw [h]

/-- C7: with positive creatinine, age and weight and age < 140, the renal
adjustment returns the tier of the computed Cockcroft-Gault clearance, with
both boundaries lower-bound-inclusive (clearance exactly 30 gives the 50%
reduction tier and exactly 60 the normal tier); non-positive creatinine, age
or weight makes `calculate_clcr` fail its precondition assertions. -/
theorem C7_renal_thresholds (creatinine : ℚ) (age : Int) (weight : ℚ)
    (sex : Str) :
    (0 < creatinine → 0 < age → 0 < weight → age < 140 →
      calculate_clcr creatinine age weight sex =
        .ok (clcr_value creatinine age weight sex) ∧
      (clcr_value creatinine age weight sex < 30 →
        adjust_for_renal creatinine age weight sex =
          .ok ("Contre-indication rénale".data)) ∧
      (30 ≤ clcr_value creatinine age weight sex →
        clcr_value creatinine age weight sex < 60 →
        adjust_for_renal creatinine age weight sex =
          .ok ("Réduction 50% posologique".data)) ∧
      (60 ≤ clcr_value creatinine age weight sex →
        adjust_for_renal creatinine age weight sex =
          .ok ("Posologie normale".data))) ∧
    (creatinine ≤ 0 ∨ age ≤ 0 ∨ weight ≤ 0 →
      ∃ e, calculate_clcr creatinine age weight sex = .error e) := by
  constructor
  · intro hc ha hw h140
    have hpos : 0 ≤ clcr_value creatinine age weight sex := by
      have h1 : (0 : ℚ) < 140 - (age : ℚ) := by
        have : (age : ℚ) < 140 := by exact_mod_cast h140
        linarith
      have h2 : (0 : ℚ) < (140 - (age : ℚ)) * weight := mul_pos h1 hw
      have h3 : (0 : ℚ) < 72 * creatinine := by linarith
      have h4 : (0 : ℚ) < ((140 - (age : ℚ)) * weight) / (72 * creatinine) :=
        div_pos h2 h3
      have h5 : (0 : ℚ) < sexFactor sex := by
        rw [sexFactor]
        split <;> norm_num
      rw [clcr_value]
      exact le_of_lt (mul_pos h4 h5)
    have hcal : calculate_clcr creatinine age weight sex =
        .ok (clcr_value creatinine age weight sex) := by
      simp only [calculate_clcr]
      rw [if_neg (not_not_intro hc), if_neg (not_not_intro hw),
        if_neg (not_not_intro ha), if_neg (not_not_intro hpos)]
    refine ⟨hcal, ?_, ?_, ?_⟩
    · intro h30
      rw [adjust_of_ok hcal, if_neg (not_not_intro hpos), if_pos h30]
    · intro h30 h60
      rw [adjust_of_ok hcal, if_neg (not_not_intro hpos),
        if_neg (not_lt.mpr h30), if_pos h60]
    · intro h60
      rw [adjust_of_ok hcal, if_neg (not_not_intro hpos),
        if_neg (not_lt.mpr (by linarith)), if_neg (not_lt.mpr h60)]
  · intro hbad
    by_cases hc : creatinine > 0
    · by_cases hw : weight > 0
      · by_cases ha : age > 0
        · exfalso
          rcases hbad with h | h | h
          · exact absurd hc (not_lt.mpr h)
          · exact absurd ha (not_lt.mpr h)
          · exact absurd hw (not_lt.mpr h)
        · refine ⟨("âge doit être positif".data), ?_⟩
          simp only [calculate_clcr]
          rw [if_neg (not_not_intro hc), if_neg (not_not_intro hw), if_pos ha]
      · refine ⟨("poids doit être positif".data), ?_⟩
        simp only [calculate_clcr]
        rw [if_neg (not_not_intro hc), if_pos hw]
    · refine ⟨("créatininémie doit être positive".data), ?_⟩
      simp only [calculate_clcr]
      rw [if_pos hc]

theorem sexFactor_M : sexFactor ("M".data) = 1 := by
  rw [sexFactor, if_neg (by decide)]

theorem clcr_value_at_104 : clcr_value 1 104 60 ("M".data) = 30 := by
  rw [clcr_value, sexFactor_M]
  norm_num

theorem clcr_value_at_68 : clcr_value 1 68 60 ("M".data) = 60 := by
  rw [clcr_value, sexFactor_M]
  norm_num

theorem clcr_value_at_104_lt_60 : clcr_value 1 104 60 ("M".data) < 60 := by
  rw [clcr_value_at_104]
  norm_num

theorem q_one_pos : (0 : ℚ) < 1 := one_pos

theorem q_sixty_pos : (0 : ℚ) < 60 := by norm_num

theorem C7_witness :
    adjust_for_renal 1 104 60 ("M".data) =
      .ok ("Réduction 50% posologique".data) ∧
    adjust_for_renal 1 68 60 ("M".data) = .ok ("Posologie normale".data) ∧
    (∃ e, calculate_clcr 0 40 70 ("M".data) = .error e) :=
  ⟨((C7_renal_thresholds 1 104 60 ("M".data)).1 q_one_pos (by decide)
      q_sixty_pos (by decide)).2.2.1 clcr_value_at_104.ge clcr_value_at_104_lt_60,
   ((C7_renal_thresholds 1 68 60 ("M".data)).1 q_one_pos (by decide)
      q_sixty_pos (by decide)).2.2.2 clcr_value_at_68.ge,
   (C7_renal_thresholds 0 40 70 ("M".data)).2 (Or.inl le_rfl)⟩

/-- C9: given the collaborator results, the problems list of the pipeline is the
interaction list, then the STOPP descriptions, then the burden warning
exactly when the score is at least 3; `recommendations` is the summarizer's
narrative first, then the START descriptions, then the generic
review-interactions note exactly when some interaction was detected. -/
theorem C9_pipeline_composition (catalog : List ((Str × Str) × Str))
    (extra : List Rule) (scores : List (Str × Int))
    (summaryFn : Demographics → List Str → List Str → Str)
    (mapping : List (Str × Str)) (demo : Demographics) (medsRaw : List Str)
    (stops starts : List Str)
    (h : evaluate_rules extra demo (medsRaw.map (normalize_drug mapping)) =
      .ok (stops, starts)) :
    run_bmp catalog extra scores summaryFn mapping demo medsRaw =
      .ok
        (detect_interactions catalog (medsRaw.map (normalize_drug mapping)) ++
           stops ++
           (if compute_burden_score scores (medsRaw.map (normalize_drug mapping)) ≥ 3
            then [_burden_warning
              (compute_burden_score scores (medsRaw.map (normalize_drug mapping)))]
            else []),
         summaryFn demo (medsRaw.map (normalize_drug mapping))
             (detect_interactions catalog (medsRaw.map (normalize_drug mapping)) ++
              stops ++
              (if compute_burden_score scores
                   (medsRaw.map (normalize_drug mapping)) ≥ 3
               then [_burden_warning (compute_burden_score scores
                 (medsRaw.map (normalize_drug mapping)))]
               else [])) ::
           (starts ++
            (if (detect_interactions catalog
                  (medsRaw.map (normalize_drug mapping))).isEmpty
             then ([] : List Str) else [_REVIEW_NOTE]))) := by
  simp only [run_bmp]
  rw [h]
  by_cases hb : compute_burden_score scores (medsRaw.map (normalize_drug mapping)) ≥ 3 <;>
    by_cases hi : (detect_interactions catalog
      (medsRaw.map (normalize_drug mapping))).isEmpty <;>
      simp [hb, hi, List.append_assoc]

theorem C9_witness :
    run_bmp _INTERACTIONS_static [] [("DIPHENHYDRAMINE".data, (3 : Int))]
        (fun _ _ _ => ("Synthèse".data))
        [(("ASPIRINE".data), ("ACETYLSALICYLIC_ACID".data)), (("ELIQUIS".data), ("APIXABAN".data))] ⟨some 70⟩
        [("aspirine".data), ("eliquis".data), ("diphenhydramine".data)] =
      .ok
        (detect_interactions _INTERACTIONS_static
            ([("aspirine".data), ("eliquis".data), ("diphenhydramine".data)].map
              (normalize_drug [(("ASPIRINE".data), ("ACETYLSALICYLIC_ACID".data)), (("ELIQUIS".data), ("APIXABAN".data))])) ++
           [("Anticholinergic chez >65 ans".data)] ++
           (if compute_burden_score [("DIPHENHYDRAMINE".data, (3 : Int))]
                ([("aspirine".data), ("eliquis".data), ("diphenhydramine".data)].map
                  (normalize_drug [(("ASPIRINE".data), ("ACETYLSALICYLIC_ACID".data)), (("ELIQUIS".data), ("APIXABAN".data))])) ≥ 3
            then [_burden_warning
              (compute_burden_score [("DIPHENHYDRAMINE".data, (3 : Int))]
                ([("aspirine".data), ("eliquis".data), ("diphenhydramine".data)].map
                  (normalize_drug [(("ASPIRINE".data), ("ACETYLSALICYLIC_ACID".data)), (("ELIQUIS".data), ("APIXABAN".data))])))]
            else []),
         (fun (_ : Demographics) (_ : List Str) (_ : List Str) =>
             ("Synthèse".data)) ⟨some 70⟩
             ([("aspirine".data), ("eliquis".data), ("diphenhydramine".data)].map
               (normalize_drug [(("ASPIRINE".data), ("ACETYLSALICYLIC_ACID".data)), (("ELIQUIS".data), ("APIXABAN".data))]))
             (detect_interactions _INTERACTIONS_static
                ([("aspirine".data), ("eliquis".data), ("diphenhydramine".data)].map
                  (normalize_drug [(("ASPIRINE".data), ("ACETYLSALICYLIC_ACID".data)), (("ELIQUIS".data), ("APIXABAN".data))])) ++
              [("Anticholinergic chez >65 ans".data)] ++
              (if compute_burden_score [("DIPHENHYDRAMINE".data, (3 : Int))]
                   ([("aspirine".data), ("eliquis".data),
                     ("diphenhydramine".data)].map
                     (normalize_drug [(("ASPIRINE".data), ("ACETYLSALICYLIC_ACID".data)), (("ELIQUIS".data), ("APIXABAN".data))])) ≥ 3
               then [_burden_warning
                 (compute_burden_score [("DIPHENHYDRAMINE".data, (3 : Int))]
                   ([("aspirine".data), ("eliquis".data),
                     ("diphenhydramine".data)].map
                     (normalize_drug [(("ASPIRINE".data), ("ACETYLSALICYLIC_ACID".data)), (("ELIQUIS".data), ("APIXABAN".data))])))]
               else [])) ::
           (([] : List Str) ++
            (if (detect_interactions _INTERACTIONS_static
                  ([("aspirine".data), ("eliquis".data), ("diphenhydramine".data)].map
                    (normalize_drug [(("ASPIRINE".data), ("ACETYLSALICYLIC_ACID".data)), (("ELIQUIS".data), ("APIXABAN".data))]))).isEmpty
             then ([] : List Str) else [_REVIEW_NOTE]))) :=
  C9_pipeline_composition _INTERACTIONS_static []
    [("DIPHENHYDRAMINE".data, (3 : Int))] (fun _ _ _ => ("Synthèse".data))
    [(("ASPIRINE".data), ("ACETYLSALICYLIC_ACID".data)), (("ELIQUIS".data), ("APIXABAN".data))] ⟨some 70⟩
    [("aspirine".data), ("eliquis".data), ("diphenhydramine".data)]
    [("Anticholinergic chez >65 ans".data)] [] rfl

end Hygie
